import Mathlib

/-!
# Verification of the GNN Image Resize core

Shallow embedding of the pipeline/batch logic of `src/gnn_image_resize.py`:
the target-size computation (`compute_new_size`), the format policy
(`guess_output_ext`, `normalize_mode_for_save`), the encode-parameter
construction (`save_image`), and the cancellable batch loop
(`App._process_all` / `App._poll_worker`).

Machine integers are modelled as `ℤ`/`ℕ`; the source's float arithmetic in
`compute_new_size` is idealized as exact rational arithmetic with Python's
`round` (round half to even).  External collaborators (the Pillow codec's
`paste`/`convert`/`split`, the filesystem, the UI) are modelled at their
documented interface.
-/

namespace GNNImageResize

/-- Source `clamp(n, lo, hi)` (line 42): `max(lo, min(hi, n))`. -/
def clamp (n lo hi : ℤ) : ℤ := max lo (min hi n)

/-- Python's built-in `round` on exact rationals: round half to even
(banker's rounding).  Models the rounding used by `compute_new_size`
(the source computes `round` on floats; we idealize with exact rationals). -/
def py_round (q : ℚ) : ℤ :=
  let f : ℤ := ⌊q⌋
  let r : ℚ := q - (f : ℚ)
  if r < 1 / 2 then f
  else if 1 / 2 < r then f + 1
  else if f % 2 = 0 then f else f + 1

/-- The guard of the both-dimensions-given branch of `compute_new_size`
(line 131): `tgt_ratio > src_ratio`, where `src_ratio = w / h` and
`tgt_ratio = target_w / target_h`.  When it holds the code recomputes
`target_w` from `target_h` (height is the binding constraint). -/
def height_binding (w h target_w target_h : ℤ) : Prop :=
  (target_w : ℚ) / (target_h : ℚ) > (w : ℚ) / (h : ℚ)

instance height_binding_dec (w h tw th : ℤ) : Decidable (height_binding w h tw th) := by
  unfold height_binding
  exact inferInstance

/-- Source `compute_new_size(im, mode, percent, width_px, height_px, keep_aspect)`
(lines 103-135), with the image replaced by its dimensions `(w, h)`.
Structure kept branch for branch:
percent mode scales both axes by `max(1, percent) / 100`;
pixel mode takes the requested value when `> 0` (source value otherwise),
then, under `keep_aspect`, recomputes the missing axis from the ratio when
exactly one axis was given, and otherwise (both given, or neither given)
recomputes one axis depending on the `height_binding` guard.
Each returned axis is clamped to `≥ 1`. -/
def compute_new_size (w h : ℤ) (mode : String) (percent width_px height_px : ℤ)
    (keep_aspect : Bool) : ℤ × ℤ :=
  if mode = "percent" then
    (max 1 (py_round ((w : ℚ) * (((max 1 percent : ℤ) : ℚ) / 100))),
     max 1 (py_round ((h : ℚ) * (((max 1 percent : ℤ) : ℚ) / 100))))
  else
    let target_w : ℤ := if width_px > 0 then width_px else w
    let target_h : ℤ := if height_px > 0 then height_px else h
    if keep_aspect then
      if width_px > 0 ∧ height_px ≤ 0 then
        (max 1 target_w, max 1 (max 1 (py_round ((h : ℚ) * ((target_w : ℚ) / (w : ℚ))))))
      else if height_px > 0 ∧ width_px ≤ 0 then
        (max 1 (max 1 (py_round ((w : ℚ) * ((target_h : ℚ) / (h : ℚ))))), max 1 target_h)
      else if height_binding w h target_w target_h then
        (max 1 (py_round ((target_h : ℚ) * ((w : ℚ) / (h : ℚ)))), max 1 target_h)
      else
        (max 1 target_w, max 1 (py_round ((target_w : ℚ) / ((w : ℚ) / (h : ℚ)))))
    else
      (max 1 target_w, max 1 target_h)

/-- ASCII upper-casing of one character (models Python's `str.upper` on the
ASCII format/extension names this program handles). -/
def py_char_upper (c : Char) : Char :=
  if 97 ≤ c.toNat ∧ c.toNat ≤ 122 then Char.ofNat (c.toNat - 32) else c

/-- ASCII lower-casing of one character (models Python's `str.lower`). -/
def py_char_lower (c : Char) : Char :=
  if 65 ≤ c.toNat ∧ c.toNat ≤ 90 then Char.ofNat (c.toNat + 32) else c

/-- Python's `s.upper()` on ASCII strings. -/
def py_upper (s : String) : String := ⟨s.data.map py_char_upper⟩

/-- Python's `s.lower()` on ASCII strings. -/
def py_lower (s : String) : String := ⟨s.data.map py_char_lower⟩

/-- The fixed supported-extension set `SUPPORTED_EXTS` (line 28). -/
def SUPPORTED_EXTS : List String :=
  [".jpg", ".jpeg", ".jpe", ".png", ".webp", ".bmp", ".tif", ".tiff", ".gif"]

/-- Source `guess_output_ext(fmt_choice, src_ext)` (lines 58-69):
`"Orijinal"` passes the (lower-cased) source extension through, otherwise a
fixed format→extension table is used, defaulting to the source extension. -/
def guess_output_ext (fmt_choice : String) (src_ext : String) : String :=
  if fmt_choice = "Orijinal" then py_lower src_ext
  else
    match fmt_choice with
    | "JPEG" => ".jpg"
    | "PNG" => ".png"
    | "WEBP" => ".webp"
    | "TIFF" => ".tiff"
    | "BMP" => ".bmp"
    | "GIF" => ".gif"
    | _ => py_lower src_ext

/-- Modelled from the spec: the image format that a supported output file
extension denotes for the codec collaborator (the encoder infers the format
from the extension when no explicit format is passed).  Used only on the
claim side of C9 ("JPEG or WEBP ... by the final output extension"). -/
def spec_ext_format (ext : String) : Option String :=
  match ext with
  | ".jpg" | ".jpeg" | ".jpe" => some "JPEG"
  | ".png" => some "PNG"
  | ".webp" => some "WEBP"
  | ".tiff" | ".tif" => some "TIFF"
  | ".bmp" => some "BMP"
  | ".gif" => some "GIF"
  | _ => none

/-- The condition of `save_image` (line 163) under which quality/optimize
parameters are set: explicit format choice `"JPEG"`/`"WEBP"`, or final
output suffix (already lower-cased) in `(".jpg", ".jpeg", ".webp")`. -/
def quality_condition (out_fmt_choice : Option String) (ext : String) : Prop :=
  (out_fmt_choice = some "JPEG" ∨ out_fmt_choice = some "WEBP") ∨
    (ext = ".jpg" ∨ ext = ".jpeg" ∨ ext = ".webp")

instance quality_condition_dec (c : Option String) (e : String) :
    Decidable (quality_condition c e) := by
  unfold quality_condition
  exact inferInstance

/-- The encoder parameter set built by `save_image` (lines 138-176):
explicit format (absent for `"Orijinal"`/`None`), dpi pair (absent when dpi
is 0, Python truthiness), quality and optimize for JPEG/WEBP targets, and
best-effort EXIF passthrough. -/
structure SaveParams where
  fmt : Option String
  dpi : Option (ℤ × ℤ)
  quality : Option ℤ
  optimize : Bool
  exif : Bool
deriving DecidableEq, Repr

/-- Source `save_image(im, out_path, out_fmt_choice, dpi, keep_exif, quality)`
(lines 138-176), restricted to the parameter dictionary it builds; the image
argument is replaced by whether it carries a raw EXIF blob, the output path
by its suffix. -/
def save_image (out_fmt_choice : Option String) (dpi : ℤ) (keep_exif : Bool)
    (has_exif_blob : Bool) (quality : ℤ) (out_suffix : String) : SaveParams :=
  let fmt : Option String :=
    match out_fmt_choice with
    | some c => if c = "Orijinal" then none else some c
    | none => none
  let dpi_p : Option (ℤ × ℤ) := if dpi = 0 then none else some (dpi, dpi)
  let ext := py_lower out_suffix
  { fmt := fmt
  , dpi := dpi_p
  , quality := if quality_condition out_fmt_choice ext then some (clamp quality 1 100) else none
  , optimize := decide (quality_condition out_fmt_choice ext)
  , exif := keep_exif && has_exif_blob }

/-- An 8-bit pixel; channel meaning depends on the color mode
(`r` holds the gray level for `L`/`LA` and the palette index for `P`;
for `CMYK` the four fields hold C, M, Y, K). -/
structure Pixel where
  r : ℕ
  g : ℕ
  b : ℕ
  a : ℕ
deriving DecidableEq, Repr

/-- The Pillow color modes relevant to `normalize_mode_for_save`. -/
inductive ColorMode
  | RGB
  | RGBA
  | LA
  | L
  | P
  | CMYK
deriving DecidableEq, Repr

/-- A decoded raster as seen by `normalize_mode_for_save`: dimensions, color
mode, pixel data, and — for `P` mode — the palette and whether the image
info dictionary carries a `"transparency"` entry (modelled as a single
transparent palette index). -/
structure PILImage where
  width : ℕ
  height : ℕ
  mode : ColorMode
  pix : ℕ → ℕ → Pixel
  palette : ℕ → Pixel
  has_transparency : Bool
  transparent_index : ℕ

/-- Pillow's 8-bit fixed-point `MULDIV255` rounding: `round(v * m / 255)`
computed as `((v * m + 128) * 257) >> 16`.  Models the codec collaborator. -/
def muldiv255 (v m : ℕ) : ℕ := ((v * m + 128) * 257) / 65536

/-- Conversion of one pixel to RGB channel layout, as the codec collaborator
performs it in `convert("RGB")` and in mode-coercing `paste`: the palette is
applied for `P` (any transparency entry is ignored), gray is replicated for
`L`/`LA`, alpha is dropped for `RGBA`. -/
def to_rgb_pixel (mode : ColorMode) (palette : ℕ → Pixel) (p : Pixel) : Pixel :=
  match mode with
  | .RGB => ⟨p.r, p.g, p.b, 255⟩
  | .RGBA => ⟨p.r, p.g, p.b, 255⟩
  | .LA => ⟨p.r, p.r, p.r, 255⟩
  | .L => ⟨p.r, p.r, p.r, 255⟩
  | .P => ⟨(palette p.r).r, (palette p.r).g, (palette p.r).b, 255⟩
  | .CMYK =>
      ⟨muldiv255 (255 - p.r) (255 - p.a), muldiv255 (255 - p.g) (255 - p.a),
       muldiv255 (255 - p.b) (255 - p.a), 255⟩

/-- The codec collaborator's `img.convert("RGB")`. -/
def img_convert_rgb (img : PILImage) : PILImage :=
  { img with
    mode := .RGB
    pix := fun x y => to_rgb_pixel img.mode img.palette (img.pix x y)
    has_transparency := false }

/-- The codec collaborator's `Image.new("RGB", size, color)` (line 76). -/
def image_new_rgb (w h : ℕ) (c : Pixel) : PILImage :=
  { width := w, height := h, mode := .RGB, pix := fun _ _ => c
  , palette := fun _ => ⟨0, 0, 0, 255⟩, has_transparency := false, transparent_index := 0 }

/-- The codec collaborator's `img.split()[-1]`: the last band (the alpha
channel for `RGBA`/`LA`, which is the only use in the source, line 77). -/
def last_band (img : PILImage) : ℕ → ℕ → ℕ := fun x y =>
  match img.mode with
  | .RGBA => (img.pix x y).a
  | .LA => (img.pix x y).a
  | .RGB => (img.pix x y).b
  | _ => (img.pix x y).r

/-- One channel of the codec collaborator's masked paste:
`MULDIV255(bg, 255 - a) + MULDIV255(src, a)`. -/
def blend_channel (bgc src a : ℕ) : ℕ := muldiv255 bgc (255 - a) + muldiv255 src a

/-- The codec collaborator's `bg.paste(img, mask=...)` over the full canvas
(line 77): the source is coerced to the background's mode (RGB here); with no
mask it is copied wholesale, with an `L`-mode mask each channel is blended
`bg*(255-a)/255 + src*a/255`. -/
def image_paste (bg src : PILImage) (mask : Option (ℕ → ℕ → ℕ)) : PILImage :=
  let s := img_convert_rgb src
  { bg with
    pix := fun x y =>
      match mask with
      | none => s.pix x y
      | some m =>
          ⟨blend_channel (bg.pix x y).r (s.pix x y).r (m x y),
           blend_channel (bg.pix x y).g (s.pix x y).g (m x y),
           blend_channel (bg.pix x y).b (s.pix x y).b (m x y), 255⟩ }

/-- Source `normalize_mode_for_save(img, out_fmt)` (lines 72-82): for
JPEG-family targets, alpha-carrying and palette-transparent sources are
pasted onto a white RGB background (with the alpha band as mask only for
`RGBA`/`LA`), other non-RGB sources are converted to RGB; every other
target format returns the image unchanged. -/
def normalize_mode_for_save (img : PILImage) (out_fmt : String) : PILImage :=
  if py_upper out_fmt = "JPEG" ∨ py_upper out_fmt = "JPG" then
    if img.mode = .RGBA ∨ img.mode = .LA ∨ (img.mode = .P ∧ img.has_transparency = true) then
      image_paste (image_new_rgb img.width img.height ⟨255, 255, 255, 255⟩) img
        (if img.mode = .RGBA ∨ img.mode = .LA then some (last_band img) else none)
    else if ¬ (img.mode = .RGB) then
      img_convert_rgb img
    else
      img
  else
    img

/-- Modelled from the spec: flattening over an opaque white background —
standard "over" compositing of the source onto a white backdrop of identical
dimensions, honoring the source's transparency (alpha channels for
`RGBA`/`LA`, and the transparent palette entry for `P` with a transparency
entry).  This is the claim-side definition for C7, to be compared with
`normalize_mode_for_save`. -/
def spec_flatten_white (img : PILImage) : PILImage :=
  { width := img.width, height := img.height, mode := .RGB
  , pix := fun x y =>
      let p := img.pix x y
      match img.mode with
      | .RGBA =>
          ⟨blend_channel 255 p.r p.a, blend_channel 255 p.g p.a,
           blend_channel 255 p.b p.a, 255⟩
      | .LA =>
          ⟨blend_channel 255 p.r p.a, blend_channel 255 p.r p.a,
           blend_channel 255 p.r p.a, 255⟩
      | .P =>
          if img.has_transparency = true ∧ p.r = img.transparent_index then
            ⟨255, 255, 255, 255⟩
          else
            ⟨(img.palette p.r).r, (img.palette p.r).g, (img.palette p.r).b, 255⟩
      | _ => to_rgb_pixel img.mode img.palette p
  , palette := fun _ => ⟨0, 0, 0, 255⟩
  , has_transparency := false
  , transparent_index := 0 }

/-- A concrete 1×1 palette image with a transparency entry: palette index 0
is black and is the transparent index, and the single pixel uses index 0. -/
def palette_transparent_black : PILImage :=
  { width := 1, height := 1, mode := .P
  , pix := fun _ _ => ⟨0, 0, 0, 0⟩
  , palette := fun _ => ⟨0, 0, 0, 255⟩
  , has_transparency := true
  , transparent_index := 0 }

/-- A concrete 1×1 CMYK image. -/
def cmyk_image : PILImage :=
  { width := 1, height := 1, mode := .CMYK
  , pix := fun _ _ => ⟨0, 0, 0, 0⟩
  , palette := fun _ => ⟨0, 0, 0, 255⟩
  , has_transparency := false
  , transparent_index := 0 }

/-- The outcome of one file's pipeline — the body of the `try` block of
`App._process_all` (lines 464-498: decode, orient, compute size, resize,
normalize, save, verify-write): either the file was processed successfully,
or some step raised an exception with the given message. -/
inductive FileOutcome
  | ok
  | err (msg : String)
deriving DecidableEq, Repr

/-- One entry of the batch's file list together with its pipeline outcome. -/
structure FileJob where
  path : String
  outcome : FileOutcome
deriving DecidableEq, Repr

/-- The mutable state of `App._process_all` (lines 447-449 and the progress
bar): the failure counter `errs`, the remembered first failure message, the
number of progress steps taken, and the error log file's content (`none`
when the file does not exist). -/
structure LoopState where
  errs : ℕ
  first_error_msg : Option String
  progress : ℕ
  log_file : Option (List String)
deriving DecidableEq, Repr

/-- The error log entry written on failure (line 502):
`[{idx}/{total}] {path} -> {message}`; the appended traceback text is
abstracted away. -/
def error_log_entry (idx total : ℕ) (path msg : String) : String :=
  "[" ++ toString idx ++ "/" ++ toString total ++ "] " ++ path ++ " -> " ++ msg

/-- Appending one entry to the log file (lines 503-507): creates the file
when absent; a write failure (`log_ok = false`) is swallowed and leaves the
file as it was. -/
def append_log (log_ok : Bool) (logf : Option (List String)) (entry : String) :
    Option (List String) :=
  if log_ok then some (logf.getD [] ++ [entry]) else logf

/-- One iteration of the batch loop after the cancellation check: the `try`
body followed by `except` and `finally` (lines 464-512).  On success only
progress advances; on failure the counter, the log, and the first-failure
message are updated and progress advances as well. -/
def step_item (log_ok : Bool) (total idx : ℕ) (job : FileJob) (s : LoopState) : LoopState :=
  match job.outcome with
  | .ok =>
      { s with progress := s.progress + 1 }
  | .err m =>
      { errs := s.errs + 1
      , first_error_msg := match s.first_error_msg with | none => some m | some m0 => some m0
      , progress := s.progress + 1
      , log_file := append_log log_ok s.log_file (error_log_entry idx total job.path m) }

/-- The batch loop of `App._process_all` (lines 461-512): iterates the file
list in order with 1-based index; before starting each item the cancellation
flag is read (`stop idx` is its value at that check) and, if set, iteration
stops immediately (no progress step for unstarted items).  `log_ok idx`
says whether the log append for a failure at index `idx` would succeed. -/
def process_loop (stop log_ok : ℕ → Bool) (total : ℕ) :
    List FileJob → ℕ → LoopState → LoopState
  | [], _, s => s
  | job :: rest, idx, s =>
    if stop idx then s
    else process_loop stop log_ok total rest (idx + 1) (step_item (log_ok idx) total idx job s)

/-- The batch-start log reset (lines 451-456): delete a pre-existing log
file, swallowing a deletion failure (`del_ok = false`). -/
def reset_old_log (pre : Option (List String)) (del_ok : Bool) : Option (List String) :=
  match pre with
  | none => none
  | some l => if del_ok then none else some l

/-- `App._process_all` (lines 433-512) over the per-file outcomes: resets the
old log, then runs the loop from index 1 on the fresh counters. -/
def process_all (stop log_ok : ℕ → Bool) (del_ok : Bool) (pre : Option (List String))
    (jobs : List FileJob) : LoopState :=
  process_loop stop log_ok jobs.length jobs 1
    { errs := 0, first_error_msg := none, progress := 0, log_file := reset_old_log pre del_ok }

/-- The terminal status shown by `App._poll_worker` (lines 421-429). -/
inductive TermStatus
  | completed
  | cancelled
deriving DecidableEq, Repr

/-- `App._poll_worker`'s terminal-status choice (lines 426-429): the
cancellation flag read once the worker has finished decides between
`Tamamlandı` (completed) and `Durduruldu` (cancelled). -/
def poll_status (stop_flag : Bool) : TermStatus :=
  if stop_flag then .cancelled else .completed

/-- A whole batch run: the final loop state plus the terminal status.
`stop_flag_at_poll` is the cancellation flag's value when `_poll_worker`
observes the worker's death; the flag is only ever set (never cleared)
during a run, so it is `true` whenever some `stop idx` was `true`. -/
structure BatchResult where
  state : LoopState
  status : TermStatus
deriving DecidableEq, Repr

/-- Worker plus poller: `App.start` → `_process_all` → `_poll_worker`. -/
def run_batch (stop log_ok : ℕ → Bool) (stop_flag_at_poll : Bool) (del_ok : Bool)
    (pre : Option (List String)) (jobs : List FileJob) : BatchResult :=
  { state := process_all stop log_ok del_ok pre jobs
  , status := poll_status stop_flag_at_poll }

/-- The number of failing jobs in a list. -/
def count_err : List FileJob → ℕ
  | [] => 0
  | j :: rest => (match j.outcome with | .ok => 0 | .err _ => 1) + count_err rest

/-- The message of the first failing job, if any. -/
def first_err_msg : List FileJob → Option String
  | [] => none
  | j :: rest => match j.outcome with | .ok => first_err_msg rest | .err m => some m

/-- The log entries the loop appends for a job list starting at index `idx`:
one entry per failure whose append succeeds. -/
def expected_entries (log_ok : ℕ → Bool) (total : ℕ) : List FileJob → ℕ → List String
  | [], _ => []
  | j :: rest, idx =>
    (match j.outcome with
     | .ok => ([] : List String)
     | .err m => if log_ok idx then [error_log_entry idx total j.path m] else []) ++
      expected_entries log_ok total rest (idx + 1)

/-- Appending entries to an optional log file: the file stays absent exactly
when it was absent and nothing is appended. -/
def merge_log (logf : Option (List String)) (es : List String) : Option (List String) :=
  match logf, es with
  | none, [] => none
  | o, l => some (o.getD [] ++ l)

/-- A concrete three-file batch in which exactly the second file fails. -/
def jobs_one_failure : List FileJob :=
  [⟨"a.jpg", .ok⟩, ⟨"b.jpg", .err "boom"⟩, ⟨"c.jpg", .ok⟩]

/-- A concrete one-file batch with no failure. -/
def jobs_all_ok : List FileJob := [⟨"a.jpg", .ok⟩]

theorem py_round_intCast (n : ℤ) : py_round ((n : ℚ)) = n := by
  simp [py_round]

/-- Reduction of `compute_new_size` in pixel mode with `keep_aspect = true`
and both requested dimensions positive: the two single-dimension branches are
skipped and the `height_binding` guard selects which axis is recomputed. -/
theorem compute_pixel_both (w h tw th percent : ℤ)
    (hw : 1 ≤ w) (hh : 1 ≤ h) (htw : 1 ≤ tw) (hth : 1 ≤ th) :
    compute_new_size w h "pixel" percent tw th true =
      if height_binding w h tw th then
        (max 1 (py_round ((th : ℚ) * ((w : ℚ) / (h : ℚ)))), max 1 th)
      else
        (max 1 tw, max 1 (py_round ((tw : ℚ) / ((w : ℚ) / (h : ℚ))))) := by
  have h1 : ((if tw > 0 then tw else w) : ℤ) = tw := if_pos (by omega)
  have h2 : ((if th > 0 then th else h) : ℤ) = th := if_pos (by omega)
  unfold compute_new_size
  rw [if_neg (by decide : ¬("pixel" = "percent"))]
  dsimp only
  rw [h1, h2, if_pos (rfl : (true : Bool) = true),
    if_neg (show ¬(tw > 0 ∧ th ≤ 0) by omega),
    if_neg (show ¬(th > 0 ∧ tw ≤ 0) by omega)]

/-- Claim C3: in percent mode the result is exactly
`(max(1, round(w * max(1, p) / 100)), max(1, round(h * max(1, p) / 100)))`,
each dimension computed independently. -/
theorem claim_C3 (w h p width_px height_px : ℤ) (keep_aspect : Bool)
    (hw : 1 ≤ w) (hh : 1 ≤ h) :
    compute_new_size w h "percent" p width_px height_px keep_aspect =
      (max 1 (py_round ((w : ℚ) * max 1 (p : ℚ) / 100)),
       max 1 (py_round ((h : ℚ) * max 1 (p : ℚ) / 100))) := by
  have e : ∀ x : ℤ, (x : ℚ) * (((max 1 p : ℤ) : ℚ) / 100) = (x : ℚ) * max 1 (p : ℚ) / 100 := by
    intro x
    push_cast
    ring
  unfold compute_new_size
  rw [if_pos rfl, e w, e h]

theorem claim_C3_witness :
    (1 ≤ (4000 : ℤ)) ∧ (1 ≤ (3000 : ℤ)) ∧
    compute_new_size 4000 3000 "percent" 50 0 0 true =
      (max 1 (py_round ((4000 : ℚ) * max 1 (((50 : ℤ)) : ℚ) / 100)),
       max 1 (py_round ((3000 : ℚ) * max 1 (((50 : ℤ)) : ℚ) / 100))) :=
  ⟨by norm_num, by norm_num, claim_C3 4000 3000 50 0 0 true (by norm_num) (by norm_num)⟩

/-- Claim C6: for any mode, percent, requested width/height (including `0`
and negative values) and keep-aspect flag, both returned dimensions are
`≥ 1`; the result is never `(0, 0)`. -/
theorem claim_C6 (w h : ℤ) (mode : String) (percent width_px height_px : ℤ)
    (keep_aspect : Bool) (hw : 1 ≤ w) (hh : 1 ≤ h) :
    1 ≤ (compute_new_size w h mode percent width_px height_px keep_aspect).1 ∧
    1 ≤ (compute_new_size w h mode percent width_px height_px keep_aspect).2 := by
  unfold compute_new_size
  dsimp only
  split_ifs <;> exact ⟨le_max_left _ _, le_max_left _ _⟩

theorem claim_C6_witness :
    (1 ≤ (1 : ℤ)) ∧ (1 ≤ (1 : ℤ)) ∧
    (1 ≤ (compute_new_size 1 1 "pixel" (-5) (-3) 0 false).1 ∧
     1 ≤ (compute_new_size 1 1 "pixel" (-5) (-3) 0 false).2) :=
  ⟨by norm_num, by norm_num, claim_C6 1 1 "pixel" (-5) (-3) 0 false (by norm_num) (by norm_num)⟩

/-- Claim C4: pixel mode, both requested dimensions positive, keep-aspect on.
If the requested ratio is strictly wider than the source ratio, `target_w`
is recomputed as `round(target_h * w / h)` (height binding); otherwise
`target_h` is recomputed as `round(target_w * h / w)` (width binding).
In particular an 800×800 source with requested 300×100 yields `(100, 100)`. -/
theorem claim_C4 (w h tw th percent : ℤ)
    (hw : 1 ≤ w) (hh : 1 ≤ h) (htw : 1 ≤ tw) (hth : 1 ≤ th) :
    (height_binding w h tw th →
      compute_new_size w h "pixel" percent tw th true =
        (max 1 (py_round ((th : ℚ) * ((w : ℚ) / (h : ℚ)))), th)) ∧
    (¬ height_binding w h tw th →
      compute_new_size w h "pixel" percent tw th true =
        (tw, max 1 (py_round ((tw : ℚ) * ((h : ℚ) / (w : ℚ)))))) ∧
    compute_new_size 800 800 "pixel" percent 300 100 true = (100, 100) := by
  have harg : (tw : ℚ) / ((w : ℚ) / (h : ℚ)) = (tw : ℚ) * ((h : ℚ) / (w : ℚ)) := by
    rw [div_div_eq_mul_div, mul_div_assoc]
  refine ⟨fun hb => ?_, fun hb => ?_, ?_⟩
  · rw [compute_pixel_both w h tw th percent hw hh htw hth, if_pos hb, max_eq_right hth]
  · rw [compute_pixel_both w h tw th percent hw hh htw hth, if_neg hb, max_eq_right htw, harg]
  · rw [compute_pixel_both 800 800 300 100 percent (by norm_num) (by norm_num) (by norm_num)
      (by norm_num), if_pos (by unfold height_binding; norm_num)]
    have e : ((100 : ℤ) : ℚ) * (((800 : ℤ) : ℚ) / ((800 : ℤ) : ℚ)) = ((100 : ℤ) : ℚ) := by
      norm_num
    rw [e, py_round_intCast]
    norm_num

theorem claim_C4_witness :
    (1 ≤ (800 : ℤ)) ∧ (1 ≤ (300 : ℤ)) ∧ (1 ≤ (100 : ℤ)) ∧ height_binding 800 800 300 100 ∧
    compute_new_size 800 800 "pixel" 0 300 100 true =
      (max 1 (py_round (((100 : ℤ) : ℚ) * (((800 : ℤ) : ℚ) / ((800 : ℤ) : ℚ)))), 100) :=
  ⟨by norm_num, by norm_num, by norm_num, by unfold height_binding; norm_num,
    (claim_C4 800 800 300 100 0 (by norm_num) (by norm_num) (by norm_num) (by norm_num)).1
      (by unfold height_binding; norm_num)⟩

/-- Claim C5 counterexample: at an exact ratio tie (source 100×100, requested
50×50, ratios both equal to 1) the guard `tgt_ratio > src_ratio` of the
both-dimensions branch is false, so the computation does NOT take the
height-binding branch. -/
theorem claim_C5_counterexample :
    ((50 : ℚ) / (50 : ℚ) = (100 : ℚ) / (100 : ℚ)) ∧ ¬ height_binding 100 100 50 50 := by
  constructor
  · norm_num
  · unfold height_binding
    norm_num

/-- Claim C5 (amended): at an exact ratio tie the computation takes the
width-binding branch — the guard `tgt_ratio > src_ratio` is false and
`target_h` is the dimension recomputed, as `round(target_w * h / w)`;
at an exact tie this recomputation returns `target_h` unchanged, so the
result coincides with what the height-binding branch would have produced. -/
theorem claim_C5 (w h tw th percent : ℤ)
    (hw : 1 ≤ w) (hh : 1 ≤ h) (htw : 1 ≤ tw) (hth : 1 ≤ th)
    (tie : (tw : ℚ) / (th : ℚ) = (w : ℚ) / (h : ℚ)) :
    ¬ height_binding w h tw th ∧
    compute_new_size w h "pixel" percent tw th true =
      (tw, max 1 (py_round ((tw : ℚ) * ((h : ℚ) / (w : ℚ))))) ∧
    compute_new_size w h "pixel" percent tw th true = (tw, th) := by
  have hw0 : (w : ℚ) ≠ 0 := Int.cast_ne_zero.mpr (by omega)
  have hh0 : (h : ℚ) ≠ 0 := Int.cast_ne_zero.mpr (by omega)
  have hth0 : (th : ℚ) ≠ 0 := Int.cast_ne_zero.mpr (by omega)
  have hnb : ¬ height_binding w h tw th := by
    unfold height_binding
    rw [tie]
    exact lt_irrefl _
  have harg : (tw : ℚ) / ((w : ℚ) / (h : ℚ)) = (tw : ℚ) * ((h : ℚ) / (w : ℚ)) := by
    rw [div_div_eq_mul_div, mul_div_assoc]
  have hcross : (tw : ℚ) * (h : ℚ) = (w : ℚ) * (th : ℚ) := by
    field_simp at tie
    exact tie
  have hval : (tw : ℚ) * ((h : ℚ) / (w : ℚ)) = ((th : ℤ) : ℚ) := by
    field_simp
    linarith [hcross]
  refine ⟨hnb, ?_, ?_⟩
  · rw [compute_pixel_both w h tw th percent hw hh htw hth, if_neg hnb, max_eq_right htw, harg]
  · rw [compute_pixel_both w h tw th percent hw hh htw hth, if_neg hnb, max_eq_right htw, harg,
      hval, py_round_intCast, max_eq_right hth]

theorem claim_C5_witness :
    (1 ≤ (2 : ℤ)) ∧ (1 ≤ (4 : ℤ)) ∧
    (((4 : ℤ) : ℚ) / ((4 : ℤ) : ℚ) = ((2 : ℤ) : ℚ) / ((2 : ℤ) : ℚ)) ∧
    (¬ height_binding 2 2 4 4 ∧
     compute_new_size 2 2 "pixel" 7 4 4 true =
       (4, max 1 (py_round (((4 : ℤ) : ℚ) * (((2 : ℤ) : ℚ) / ((2 : ℤ) : ℚ))))) ∧
     compute_new_size 2 2 "pixel" 7 4 4 true = (4, 4)) :=
  ⟨by norm_num, by norm_num, by norm_num,
    claim_C5 2 2 4 4 7 (by norm_num) (by norm_num) (by norm_num) (by norm_num) (by norm_num)⟩

/-- Claim C7: for a JPEG-family target, a palette image with a transparency
entry is NOT composited over white — the source pastes it without a mask, so
the transparent pixel keeps its palette color.  At the concrete failing
input (1×1 `P` image, transparent index 0 whose palette color is black) the
code produces an opaque black pixel where the claimed over-white compositing
(`spec_flatten_white`) produces opaque white. -/
theorem claim_C7_bug :
    (normalize_mode_for_save palette_transparent_black "JPEG").mode = ColorMode.RGB ∧
    (normalize_mode_for_save palette_transparent_black "JPEG").pix 0 0 = ⟨0, 0, 0, 255⟩ ∧
    (spec_flatten_white palette_transparent_black).pix 0 0 = ⟨255, 255, 255, 255⟩ ∧
    (normalize_mode_for_save palette_transparent_black "JPEG").pix 0 0 ≠
      (spec_flatten_white palette_transparent_black).pix 0 0 := by
  refine ⟨?_, ?_, ?_, ?_⟩ <;> decide

/-- Claim C8 counterexample: a CMYK source with a non-JPEG target (PNG) is
returned entirely unchanged — no conversion to an RGB-equivalent layout
happens. -/
theorem claim_C8_counterexample :
    normalize_mode_for_save cmyk_image "PNG" = cmyk_image ∧
    cmyk_image.mode = ColorMode.CMYK ∧ cmyk_image.mode ≠ ColorMode.RGB := by
  refine ⟨?_, rfl, by decide⟩
  unfold normalize_mode_for_save
  rw [if_neg (by decide)]

/-- Claim C8 (amended): for every output format that is not JPEG-family,
color-mode normalization performs no conversion at all — the image is
returned unchanged whatever its mode. -/
theorem claim_C8 (img : PILImage) (fmt : String)
    (hfmt : ¬ (py_upper fmt = "JPEG" ∨ py_upper fmt = "JPG")) :
    normalize_mode_for_save img fmt = img := by
  unfold normalize_mode_for_save
  rw [if_neg hfmt]

theorem claim_C8_witness :
    (¬ (py_upper "BMP" = "JPEG" ∨ py_upper "BMP" = "JPG")) ∧
    normalize_mode_for_save cmyk_image "BMP" = cmyk_image :=
  ⟨by decide, claim_C8 cmyk_image "BMP" (by decide)⟩

/-- Claim C9 counterexample: `.jpe` is a supported extension, is passed
through by `guess_output_ext` under the `"Orijinal"` choice, and denotes the
JPEG format to the encoder — yet `save_image` sets neither quality nor
optimize for it, because its extension test only covers
`.jpg`/`.jpeg`/`.webp`. -/
theorem claim_C9_counterexample :
    ".jpe" ∈ SUPPORTED_EXTS ∧
    guess_output_ext "Orijinal" ".jpe" = ".jpe" ∧
    spec_ext_format ".jpe" = some "JPEG" ∧
    (save_image none 300 true false 90 ".jpe").quality = none ∧
    (save_image none 300 true false 90 ".jpe").optimize = false := by
  refine ⟨?_, ?_, ?_, ?_, ?_⟩ <;> decide

/-- Claim C9 (amended): quality = `clamp(quality, 1, 100)` and the optimize
flag are set exactly when the explicit format choice is `"JPEG"`/`"WEBP"` or
the lower-cased output suffix is one of `.jpg`, `.jpeg`, `.webp`; for every
other combination both parameters are absent (so a `.jpe` output, JPEG by
extension, does not receive them). -/
theorem claim_C9 (choice : Option String) (dpi q : ℤ) (ke he : Bool) (ext : String) :
    (quality_condition choice (py_lower ext) →
      (save_image choice dpi ke he q ext).quality = some (clamp q 1 100) ∧
      (save_image choice dpi ke he q ext).optimize = true) ∧
    (¬ quality_condition choice (py_lower ext) →
      (save_image choice dpi ke he q ext).quality = none ∧
      (save_image choice dpi ke he q ext).optimize = false) := by
  unfold save_image
  by_cases hc : quality_condition choice (py_lower ext)
  · simp [hc]
  · simp [hc]

theorem claim_C9_witness :
    quality_condition (some "WEBP") (py_lower ".png") ∧
    ((save_image (some "WEBP") 300 true false 90 ".png").quality = some (clamp 90 1 100) ∧
     (save_image (some "WEBP") 300 true false 90 ".png").optimize = true) :=
  ⟨by decide, (claim_C9 (some "WEBP") 300 90 true false ".png").1 (by decide)⟩

theorem merge_log_nil (o : Option (List String)) : merge_log o [] = o := by
  cases o <;> simp [merge_log]

theorem merge_log_append (o : Option (List String)) (e : String) (es : List String) :
    merge_log (some (o.getD [] ++ [e])) es = merge_log o (e :: es) := by
  cases o <;> simp [merge_log]

theorem process_loop_no_stop_progress (lo : ℕ → Bool) (total : ℕ) :
    ∀ (jobs : List FileJob) (idx : ℕ) (s : LoopState),
      (process_loop (fun _ => false) lo total jobs idx s).progress = s.progress + jobs.length := by
  intro jobs
  induction jobs with
  | nil => intro idx s; simp [process_loop]
  | cons j rest ih =>
      intro idx s
      simp only [process_loop, Bool.false_eq_true, if_false]
      rw [ih (idx + 1)]
      cases h : j.outcome <;> simp [step_item, h, List.length_cons] <;> omega

theorem process_loop_no_stop_errs (lo : ℕ → Bool) (total : ℕ) :
    ∀ (jobs : List FileJob) (idx : ℕ) (s : LoopState),
      (process_loop (fun _ => false) lo total jobs idx s).errs = s.errs + count_err jobs := by
  intro jobs
  induction jobs with
  | nil => intro idx s; simp [process_loop, count_err]
  | cons j rest ih =>
      intro idx s
      simp only [process_loop, Bool.false_eq_true, if_false]
      rw [ih (idx + 1)]
      cases h : j.outcome <;> simp [step_item, h, count_err] <;> omega

theorem process_loop_no_stop_first (lo : ℕ → Bool) (total : ℕ) :
    ∀ (jobs : List FileJob) (idx : ℕ) (s : LoopState),
      (process_loop (fun _ => false) lo total jobs idx s).first_error_msg =
        match s.first_error_msg with
        | some m => some m
        | none => first_err_msg jobs := by
  intro jobs
  induction jobs with
  | nil =>
      intro idx s
      cases hs : s.first_error_msg <;> simp [process_loop, first_err_msg, hs]
  | cons j rest ih =>
      intro idx s
      simp only [process_loop, Bool.false_eq_true, if_false]
      rw [ih (idx + 1)]
      cases h : j.outcome <;>
        cases hs : s.first_error_msg <;>
          simp [step_item, h, hs, first_err_msg]

theorem process_loop_no_stop_log (lo : ℕ → Bool) (total : ℕ) :
    ∀ (jobs : List FileJob) (idx : ℕ) (s : LoopState),
      (process_loop (fun _ => false) lo total jobs idx s).log_file =
        merge_log s.log_file (expected_entries lo total jobs idx) := by
  intro jobs
  induction jobs with
  | nil => intro idx s; simp [process_loop, expected_entries, merge_log_nil]
  | cons j rest ih =>
      intro idx s
      simp only [process_loop, Bool.false_eq_true, if_false]
      rw [ih (idx + 1)]
      cases h : j.outcome with
      | ok => simp [step_item, h, expected_entries]
      | err m =>
          cases hlo : lo idx with
          | true =>
              simp only [step_item, h, append_log, hlo, if_true, expected_entries]
              rw [merge_log_append]
              rfl
          | false =>
              simp [step_item, h, append_log, hlo, expected_entries]

theorem process_loop_cutoff (lo : ℕ → Bool) (total k : ℕ) :
    ∀ (jobs : List FileJob) (idx : ℕ) (s : LoopState),
      process_loop (fun i => decide (k < i)) lo total jobs idx s =
        process_loop (fun _ => false) lo total (jobs.take (k + 1 - idx)) idx s := by
  intro jobs
  induction jobs with
  | nil => intro idx s; simp [process_loop]
  | cons j rest ih =>
      intro idx s
      by_cases hk : k < idx
      · have h0 : k + 1 - idx = 0 := by omega
        simp [process_loop, hk, h0]
      · have h1 : k + 1 - idx = (k + 1 - (idx + 1)) + 1 := by omega
        rw [h1, List.take_succ_cons]
        simp only [process_loop, decide_eq_true_eq, Bool.false_eq_true, if_false, hk, if_neg]
        exact ih (idx + 1) _

theorem process_loop_log_no_err (stop lo : ℕ → Bool) (total : ℕ) :
    ∀ (jobs : List FileJob) (idx : ℕ) (s : LoopState),
      (∀ j ∈ jobs, j.outcome = FileOutcome.ok) →
      (process_loop stop lo total jobs idx s).log_file = s.log_file := by
  intro jobs
  induction jobs with
  | nil => intro idx s _; simp [process_loop]
  | cons j rest ih =>
      intro idx s hok
      have hj : j.outcome = FileOutcome.ok := hok j (List.mem_cons_self j rest)
      have hrest : ∀ x ∈ rest, x.outcome = FileOutcome.ok := fun x hx =>
        hok x (List.mem_cons_of_mem j hx)
      cases hstop : stop idx with
      | true => simp [process_loop, hstop]
      | false =>
          simp only [process_loop, hstop, Bool.false_eq_true, if_false]
          rw [ih (idx + 1) _ hrest]
          simp [step_item, hj]

/-- Claim C1: failure isolation in the batch loop.  Without cancellation,
whatever the per-file outcomes and whatever log appends fail: progress
reaches the full list length (no failure aborts the batch, and progress
advances for failed items too), the failed counter equals the number of
failing files, the first failure's message is recorded and never overwritten,
the log holds exactly the entries whose appends succeeded (an append failure
is swallowed and affects nothing else), the run completes, and with exactly
one failure among `N` files the batch finishes with `N-1` succeeded and one
failed. -/
theorem claim_C1 (jobs : List FileJob) (lo : ℕ → Bool) (del_ok : Bool) :
    (run_batch (fun _ => false) lo false del_ok none jobs).state.progress = jobs.length ∧
    (run_batch (fun _ => false) lo false del_ok none jobs).state.errs = count_err jobs ∧
    (run_batch (fun _ => false) lo false del_ok none jobs).state.first_error_msg =
      first_err_msg jobs ∧
    (run_batch (fun _ => false) lo false del_ok none jobs).state.log_file =
      merge_log none (expected_entries lo jobs.length jobs 1) ∧
    (run_batch (fun _ => false) lo false del_ok none jobs).status = TermStatus.completed ∧
    (count_err jobs = 1 →
      (run_batch (fun _ => false) lo false del_ok none jobs).state.errs = 1 ∧
      (run_batch (fun _ => false) lo false del_ok none jobs).state.progress -
        (run_batch (fun _ => false) lo false del_ok none jobs).state.errs =
          jobs.length - 1) := by
  have hstate : (run_batch (fun _ => false) lo false del_ok none jobs).state =
      process_loop (fun _ => false) lo jobs.length jobs 1
        { errs := 0, first_error_msg := none, progress := 0, log_file := none } := rfl
  rw [hstate, process_loop_no_stop_progress, process_loop_no_stop_errs,
    process_loop_no_stop_first, process_loop_no_stop_log]
  refine ⟨by simp, by simp, rfl, rfl, rfl, fun h1 => ⟨by simp [h1], by simp [h1]⟩⟩

theorem claim_C1_witness :
    count_err jobs_one_failure = 1 ∧
    ((run_batch (fun _ => false) (fun _ => true) false true none jobs_one_failure).state.progress =
        jobs_one_failure.length ∧
      (run_batch (fun _ => false) (fun _ => true) false true none jobs_one_failure).state.errs =
        count_err jobs_one_failure ∧
      (run_batch (fun _ => false) (fun _ => true) false true none
          jobs_one_failure).state.first_error_msg = first_err_msg jobs_one_failure ∧
      (run_batch (fun _ => false) (fun _ => true) false true none jobs_one_failure).state.log_file =
        merge_log none
          (expected_entries (fun _ => true) jobs_one_failure.length jobs_one_failure 1) ∧
      (run_batch (fun _ => false) (fun _ => true) false true none jobs_one_failure).status =
        TermStatus.completed ∧
      (count_err jobs_one_failure = 1 →
        (run_batch (fun _ => false) (fun _ => true) false true none jobs_one_failure).state.errs =
          1 ∧
        (run_batch (fun _ => false) (fun _ => true) false true none
              jobs_one_failure).state.progress -
            (run_batch (fun _ => false) (fun _ => true) false true none
              jobs_one_failure).state.errs =
          jobs_one_failure.length - 1)) :=
  ⟨by decide, claim_C1 jobs_one_failure (fun _ => true) true⟩

/-- Claim C2: cancellation semantics.  The flag is only read at iteration
boundaries; with the flag unset at the checks before items `1..k` and set at
every later check (i.e. cancellation requested after item `k` started and
before item `k+1` started), exactly the first `k` items are fully processed —
progress is `k`, the failure counter, first-failure message and log cover
exactly the first `k` items, the remaining items are untouched and not
counted as failed — and the terminal status is Cancelled, not Completed. -/
theorem claim_C2 (jobs : List FileJob) (k : ℕ) (lo : ℕ → Bool) (del_ok : Bool)
    (hk : k ≤ jobs.length) :
    (run_batch (fun i => decide (k < i)) lo true del_ok none jobs).state.progress = k ∧
    (run_batch (fun i => decide (k < i)) lo true del_ok none jobs).state.errs =
      count_err (jobs.take k) ∧
    (run_batch (fun i => decide (k < i)) lo true del_ok none jobs).state.first_error_msg =
      first_err_msg (jobs.take k) ∧
    (run_batch (fun i => decide (k < i)) lo true del_ok none jobs).state.log_file =
      merge_log none (expected_entries lo jobs.length (jobs.take k) 1) ∧
    (run_batch (fun i => decide (k < i)) lo true del_ok none jobs).status =
      TermStatus.cancelled ∧
    (run_batch (fun i => decide (k < i)) lo true del_ok none jobs).status ≠
      TermStatus.completed := by
  have hstate : (run_batch (fun i => decide (k < i)) lo true del_ok none jobs).state =
      process_loop (fun i => decide (k < i)) lo jobs.length jobs 1
        { errs := 0, first_error_msg := none, progress := 0, log_file := none } := rfl
  have htake : k + 1 - 1 = k := by omega
  rw [hstate, process_loop_cutoff, htake, process_loop_no_stop_progress,
    process_loop_no_stop_errs, process_loop_no_stop_first, process_loop_no_stop_log]
  refine ⟨?_, by simp, rfl, rfl, rfl, by simp [run_batch, poll_status]⟩
  simp [List.length_take]
  omega

theorem claim_C2_witness :
    2 ≤ jobs_one_failure.length ∧
    ((run_batch (fun i => decide (2 < i)) (fun _ => true) true false none
          jobs_one_failure).state.progress = 2 ∧
      (run_batch (fun i => decide (2 < i)) (fun _ => true) true false none
          jobs_one_failure).state.errs = count_err (jobs_one_failure.take 2) ∧
      (run_batch (fun i => decide (2 < i)) (fun _ => true) true false none
          jobs_one_failure).state.first_error_msg = first_err_msg (jobs_one_failure.take 2) ∧
      (run_batch (fun i => decide (2 < i)) (fun _ => true) true false none
          jobs_one_failure).state.log_file =
        merge_log none
          (expected_entries (fun _ => true) jobs_one_failure.length (jobs_one_failure.take 2) 1) ∧
      (run_batch (fun i => decide (2 < i)) (fun _ => true) true false none
          jobs_one_failure).status = TermStatus.cancelled ∧
      (run_batch (fun i => decide (2 < i)) (fun _ => true) true false none
          jobs_one_failure).status ≠ TermStatus.completed) :=
  ⟨by decide, claim_C2 jobs_one_failure 2 (fun _ => true) false (by decide)⟩

/-- Claim C10: after a batch run with no per-file failure the log file is
exactly what the batch-start reset left — deletion of any pre-existing log
(a deletion failure being swallowed), never re-created afterwards; in
particular when the deletion succeeds no error log file exists after the
run. -/
theorem claim_C10 (pre : Option (List String)) (del_ok : Bool) (jobs : List FileJob)
    (stop lo : ℕ → Bool) (flag : Bool)
    (hok : ∀ j ∈ jobs, j.outcome = FileOutcome.ok) :
    (run_batch stop lo flag del_ok pre jobs).state.log_file = reset_old_log pre del_ok ∧
    (del_ok = true → (run_batch stop lo flag del_ok pre jobs).state.log_file = none) := by
  have h1 : (run_batch stop lo flag del_ok pre jobs).state.log_file =
      reset_old_log pre del_ok :=
    process_loop_log_no_err stop lo jobs.length jobs 1
      { errs := 0, first_error_msg := none, progress := 0
      , log_file := reset_old_log pre del_ok } hok
  refine ⟨h1, fun hd => ?_⟩
  rw [h1, hd]
  cases pre <;> simp [reset_old_log]

theorem claim_C10_witness :
    (∀ j ∈ jobs_all_ok, j.outcome = FileOutcome.ok) ∧
    ((run_batch (fun _ => false) (fun _ => true) false true (some ["stale"])
          jobs_all_ok).state.log_file = reset_old_log (some ["stale"]) true ∧
      (true = true →
        (run_batch (fun _ => false) (fun _ => true) false true (some ["stale"])
            jobs_all_ok).state.log_file = none)) :=
  ⟨by decide, claim_C10 (some ["stale"]) true jobs_all_ok (fun _ => false) (fun _ => true) false
    (by decide)⟩

end GNNImageResize
